import Mathlib

/-!
Shallow embedding of `src/main.py` (Recipeh): a socket server dispatching
JSON requests to a recipe-lookup-and-email operation or an inbox fetch.
External effects (SMTP session, IMAP session, HTTP call) are abstracted as
outcome parameters; the data shaping and control flow are translated
directly from the Python source.
-/

namespace Recipeh

/-! ## Data model -/

/-- A decoded JSON request object.  The Python code reads the fields
`type`, `food_type` and `recipient_email` with `dict.get`, which yields
`None` when the key is absent; we model each as an `Option String`. -/
structure Request where
  type : Option String
  food_type : Option String
  recipient_email : Option String
deriving DecidableEq, Repr

/-- A Python `bytes` value, a sequence of byte values.  The message ids
produced by `search_data[0].split()` are `bytes`, and `json.dumps`
cannot serialize `bytes`. -/
structure Bytes where
  data : List Nat
deriving DecidableEq, Repr

/-- One entry of the `emails` list built by `fetch_recent_emails`:
`{'id': ..., 'subject': ..., 'sender': ..., 'body': ...}`.  The `id` is
the raw `bytes` message id, stored unconverted. -/
structure EmailSummary where
  id : Bytes
  subject : String
  sender : String
  body : String
deriving DecidableEq, Repr

/-- The JSON response object written back to the client.  The four
response shapes occurring in `handle_client_connection` use different
subsets of keys, so absent keys are `none`. -/
structure Response where
  success : Bool
  message : Option String
  ingredients : Option (List String)
  emails : Option (List EmailSummary)
deriving DecidableEq, Repr

/-- Python string interpolation of a possibly-absent string:
`f"{x}"` renders `None` as the text `"None"`. -/
def pyStr : Option String → String
  | none => "None"
  | some s => s

/-! ## Mail message bodies (`_get_email_body`) -/

/-- A parsed mail message part, as produced by `email.message_from_bytes`.
A `leaf` is a non-multipart part carrying a decoded payload; a `multi`
is a container part, whose content type as reported by
`get_content_type()` is `multipart/<subtype>`. -/
inductive MailPart where
  | leaf (contentType : String) (payload : String)
  | multi (subtype : String) (parts : List MailPart)

/-- `part.get_content_type()`. -/
def get_content_type : MailPart → String
  | .leaf ct _ => ct
  | .multi sub _ => "multipart/" ++ sub

mutual

/-- `message.walk()`: depth-first preorder traversal, the message itself
first, then each subpart's walk in order. -/
def walk : MailPart → List MailPart
  | .leaf ct p => [.leaf ct p]
  | .multi sub parts => .multi sub parts :: walkList parts

/-- Concatenated walks of a list of subparts. -/
def walkList : List MailPart → List MailPart
  | [] => []
  | m :: ms => walk m ++ walkList ms

end

/-- `EmailAutomation._get_email_body`: if the message is multipart, scan
`walk()` for the first part whose content type is `text/plain` and take
its decoded payload, defaulting to `""` when no such part exists;
otherwise decode the single payload.  (The `some (.multi ..)` branch is
unreachable: a container's content type starts with `multipart/`.) -/
def _get_email_body (email_message : MailPart) : String :=
  match email_message with
  | .multi sub parts =>
    match (walk (.multi sub parts)).find?
        (fun part => get_content_type part == "text/plain") with
    | some (.leaf _ payload) => payload
    | some (.multi _ _) => ""
    | none => ""
  | .leaf _ payload => payload

/-! ## Mail fetching (`fetch_recent_emails`) -/

/-- One message stored on the IMAP server: its `bytes` id (an element
of `search_data[0].split()`) together with the parsed message
(`Subject` header, `From` header, body tree). -/
structure RawEmail where
  id : Bytes
  subject : String
  sender : String
  msg : MailPart

/-- The IMAP world: for each search criterion, either the list of
matching message ids (in server search order, oldest first) with their
messages, or an exception text (connect/login/select/search failure). -/
abbrev ImapWorld : Type := String → Except String (List RawEmail)

/-- Python's slice `xs[-k:]` for a nonnegative `k`: `-0` is `0`, so
`xs[-0:]` is the whole list; for `k > 0` it is the suffix of length
`min k xs.length`. -/
def pySliceLast {α : Type} (xs : List α) (k : Nat) : List α :=
  if k = 0 then xs else xs.drop (xs.length - k)

/-- `EmailAutomation.fetch_recent_emails`: search with the given
criterion, take the last `limit` matching ids (`email_ids[-limit:]`),
build a summary of each; any exception is caught and yields `[]`. -/
def fetch_recent_emails (world : ImapWorld)
    (search_criteria : String) (limit : Nat) : List EmailSummary :=
  match world search_criteria with
  | .error _ => []
  | .ok email_ids =>
    (pySliceLast email_ids limit).map fun e =>
      { id := e.id, subject := e.subject, sender := e.sender,
        body := _get_email_body e.msg }

/-- Default search criterion of `fetch_recent_emails`. -/
def defaultCriteria : String := "UNSEEN"

/-- Default limit of `fetch_recent_emails`. -/
def defaultLimit : Nat := 5

/-! ## Recipe lookup (`get_recipe_ingredients`) -/

/-- One entry of a recipe's `extendedIngredients` array; only its
`original` text is read. -/
structure ApiIngredient where
  original : String
deriving DecidableEq, Repr

/-- One entry of the API response's `results` array. -/
structure ApiRecipe where
  extendedIngredients : List ApiIngredient
deriving DecidableEq, Repr

/-- Outcome of the HTTP GET plus JSON parse: either an exception
(network failure, malformed JSON, missing key) or the parsed `results`
array. -/
inductive ApiOutcome where
  | failure (err : String)
  | ok (results : List ApiRecipe)
deriving DecidableEq, Repr

/-- `EmailAutomation.get_recipe_ingredients`: on a parsed response with
non-empty `results`, the `original` text of every entry of the first
result's `extendedIngredients`, in order; on empty `results`, `[]`; any
exception is caught and yields `[]`. -/
def get_recipe_ingredients (outcome : ApiOutcome) : List String :=
  match outcome with
  | .failure _ => []
  | .ok [] => []
  | .ok (r :: _) => r.extendedIngredients.map (fun i => i.original)

/-! ## Mail sending (`send_email`) -/

/-- Outcome of the SMTP session (connect, STARTTLS, login, sendmail,
quit): `ok` when every step succeeds, otherwise the exception text. -/
abbrev SmtpOutcome : Type := Except String Unit

/-- `EmailAutomation.send_email`: returns
`(True, "Email sent successfully")` on success; any exception is caught
and returned as `(False, str(e))`.  Total: never raises to the caller. -/
def send_email (outcome : SmtpOutcome) : Bool × String :=
  match outcome with
  | .ok _ => (true, "Email sent successfully")
  | .error e => (false, e)

/-! ## The dispatcher (`handle_client_connection`, lines 149-211) -/

/-- A record of one invocation of `send_email`: the arguments
`(recipient_email, subject, body)` it was called with. -/
structure SendCall where
  recipient : Option String
  subject : String
  body : String
deriving DecidableEq, Repr

/-- The routing part of `handle_client_connection` (after a successful
JSON decode): computes the response object and the list of `send_email`
invocations made along the way. -/
def handle_request (api : ApiOutcome) (smtp : SmtpOutcome)
    (imap : ImapWorld) (request_data : Request) :
    Response × List SendCall :=
  let request_type := request_data.type.getD "recipe"
  if request_type = "recipe" then
    let food_type := request_data.food_type
    let recipient_email := request_data.recipient_email
    let ingredients := get_recipe_ingredients api
    if ingredients.isEmpty then
      ({ success := false, message := some "No ingredients found",
         ingredients := some [], emails := none }, [])
    else
      let ingredients_list := String.intercalate "\n" ingredients
      let subject := "Ingredients for " ++ pyStr food_type ++ " Recipe"
      let body := "Here are the ingredients for your " ++ pyStr food_type
        ++ " recipe:\n\n" ++ ingredients_list
      let result := send_email smtp
      ({ success := result.1, message := some result.2,
         ingredients := some ingredients, emails := none },
       [{ recipient := recipient_email, subject := subject, body := body }])
  else if request_type = "fetch_emails" then
    ({ success := true, message := none, ingredients := none,
       emails := some (fetch_recent_emails imap defaultCriteria defaultLimit) },
     [])
  else
    ({ success := false, message := some "Invalid request type",
       ingredients := none, emails := none }, [])

/-- What `conn.recv(1024)` followed by UTF-8 decode and `json.loads`
produced: `empty` when the client sent nothing (`if not data: return`),
`invalid e` when decoding raised an exception with text `e` (this also
covers a JSON value that is not an object), `valid req` when a JSON
object was decoded. -/
inductive RecvData where
  | empty
  | invalid (errText : String)
  | valid (request_data : Request)
deriving DecidableEq, Repr

/-- Observable outcome of one connection: the JSON payloads written with
`conn.sendall`, in order, and whether `conn.close()` ran. -/
structure HandlerResult where
  sent : List Response
  closed : Bool
deriving DecidableEq, Repr

/-- Whether `json.dumps(response)` at line 211 succeeds.  `bytes` is
not JSON serializable, and the only `bytes` values reachable in a
response are the `id` fields of its email summaries, so serialization
raises `TypeError("Object of type bytes is not JSON serializable")`
exactly when the `emails` list is present and non-empty. -/
def json_serializable (response : Response) : Bool :=
  match response.emails with
  | none => true
  | some es => es.isEmpty

/-- The `str(e)` text of the `TypeError` raised by `json.dumps` on a
`bytes` value. -/
def bytesTypeErrorText : String := "Object of type bytes is not JSON serializable"

/-- `handle_client_connection`: on empty data, return without sending
(the `finally` still closes); on a decode exception, the top-level
`except` sends `{'success': False, 'message': str(e)}`; otherwise route
the request and send `json.dumps(response)` — and when that raises (a
`bytes` id in the `emails` list), the top-level `except` catches it and
sends the `TypeError` text instead.  The connection is always closed. -/
def handle_client_connection (api : ApiOutcome) (smtp : SmtpOutcome)
    (imap : ImapWorld) (recv : RecvData) : HandlerResult :=
  match recv with
  | .empty => { sent := [], closed := true }
  | .invalid e =>
    { sent := [{ success := false, message := some e,
                 ingredients := none, emails := none }],
      closed := true }
  | .valid request_data =>
    let response := (handle_request api smtp imap request_data).1
    { sent := [if json_serializable response then response
               else { success := false, message := some bytesTypeErrorText,
                      ingredients := none, emails := none }],
      closed := true }

/-! ## Helper lemmas -/

/-- A container part's content type `multipart/<subtype>` is never
`text/plain`. -/
lemma multipart_content_ne_textplain (sub : String) :
    ("multipart/" ++ sub) ≠ "text/plain" := by
  intro h
  have hlen : ("multipart/" ++ sub).length = ("text/plain" : String).length :=
    congrArg String.length h
  rw [String.length_append] at hlen
  have h10 : ("multipart/" : String).length = 10 := rfl
  have h10' : ("text/plain" : String).length = 10 := rfl
  rw [h10, h10'] at hlen
  have hz : sub.length = 0 := by omega
  have hnil : sub = "" := by
    cases sub with
    | mk data =>
      have : data = [] := List.length_eq_zero.mp hz
      rw [this]
  rw [hnil] at h
  exact absurd h (by decide)

/-- A part found by scanning for content type `text/plain` is a leaf
with content type `text/plain`. -/
lemma find_textplain_leaf (l : List MailPart) (p : MailPart)
    (h : l.find? (fun q => get_content_type q == "text/plain") = some p) :
    ∃ s, p = .leaf "text/plain" s := by
  have hp := List.find?_some h
  cases p with
  | leaf ct s =>
    have hct : ct = "text/plain" := eq_of_beq hp
    exact ⟨s, by rw [hct]⟩
  | multi sub parts =>
    exact absurd (eq_of_beq hp) (multipart_content_ne_textplain sub)

/-- Length of the Python slice `xs[-k:]` for `k > 0`. -/
lemma pySliceLast_length {α : Type} (xs : List α) (k : Nat) (hk : k ≠ 0) :
    (pySliceLast xs k).length = min k xs.length := by
  unfold pySliceLast
  rw [if_neg hk, List.length_drop]
  omega

/-- When the IMAP search succeeds, the fetched list has one summary per
selected id: `min limit n` of them for a positive `limit`. -/
lemma fetch_ok_length (imap : ImapWorld) (crit : String) (limit : Nat)
    (hk : limit ≠ 0) (ids : List RawEmail) (h : imap crit = .ok ids) :
    (fetch_recent_emails imap crit limit).length = min limit ids.length := by
  unfold fetch_recent_emails
  rw [h]
  rw [List.length_map, pySliceLast_length _ _ hk]

/-! ## Claim theorems -/

/-- C1 counterexample: a decoded request with no `type` field is not
answered with `{"success": false, "message": "Invalid request type"}`:
`request_data.get('type', 'recipe')` defaults a missing `type` to
`"recipe"`, so the request is routed to the recipe branch (here the
lookup fails, so the answer is the "No ingredients found" response). -/
theorem C1_missing_type_counterexample :
    (handle_request (.failure "connection error") (.ok ())
        (fun _ => .error "imap down")
        { type := none, food_type := none, recipient_email := none }).1 ≠
      { success := false, message := some "Invalid request type",
        ingredients := none, emails := none } := by
  decide

/-- C1 (amended): for every decoded request whose `type` field is
present and is neither `"recipe"` nor `"fetch_emails"`, the response is
exactly `{"success": false, "message": "Invalid request type"}` and no
email is sent; a missing `type` instead defaults to `"recipe"`. -/
theorem C1_invalid_type (api : ApiOutcome) (smtp : SmtpOutcome)
    (imap : ImapWorld) (req : Request) (t : String)
    (ht : req.type = some t) (h1 : t ≠ "recipe") (h2 : t ≠ "fetch_emails") :
    handle_request api smtp imap req =
      ({ success := false, message := some "Invalid request type",
         ingredients := none, emails := none }, []) := by
  unfold handle_request
  rw [ht]
  simp [h1, h2]

/-- C1 witness: the amended statement at `type = "bogus"`. -/
theorem C1_invalid_type_witness :
    handle_request (.failure "connection error") (.ok ())
        (fun _ => .error "imap down")
        { type := some "bogus", food_type := none, recipient_email := none } =
      ({ success := false, message := some "Invalid request type",
         ingredients := none, emails := none }, []) :=
  C1_invalid_type _ _ _ _ "bogus" rfl (by decide) (by decide)

/-- C2: for every `"recipe"` request where the lookup returns a
non-empty list `L` and the SMTP session succeeds, the response is
`{"success": true, "message": "Email sent successfully",
"ingredients": L}` with `L` in lookup order, and the one `send_email`
call's body carries exactly `L` joined with newlines, in order. -/
theorem C2_recipe_success (api : ApiOutcome) (imap : ImapWorld)
    (req : Request) (L : List String)
    (ht : req.type = some "recipe")
    (hL : get_recipe_ingredients api = L) (hne : L ≠ []) :
    handle_request api (.ok ()) imap req =
      ({ success := true, message := some "Email sent successfully",
         ingredients := some L, emails := none },
       [{ recipient := req.recipient_email,
          subject := "Ingredients for " ++ pyStr req.food_type ++ " Recipe",
          body := "Here are the ingredients for your " ++ pyStr req.food_type
            ++ " recipe:\n\n" ++ String.intercalate "\n" L }]) := by
  unfold handle_request
  rw [ht]
  simp [hL, hne, send_email]

/-- C2 witness: the spec's scenario, `food_type = "pasta"`,
`recipient_email = "a@b.com"`, lookup returning
`["200g pasta", "1 onion"]`, sender succeeding. -/
theorem C2_recipe_success_witness :
    handle_request
        (.ok [{ extendedIngredients :=
                  [{ original := "200g pasta" }, { original := "1 onion" }] }])
        (.ok ()) (fun _ => .error "imap down")
        { type := some "recipe", food_type := some "pasta",
          recipient_email := some "a@b.com" } =
      ({ success := true, message := some "Email sent successfully",
         ingredients := some ["200g pasta", "1 onion"], emails := none },
       [{ recipient := some "a@b.com",
          subject := "Ingredients for pasta Recipe",
          body := "Here are the ingredients for your pasta recipe:\n\n200g pasta\n1 onion" }]) := by
  have h := C2_recipe_success
      (.ok [{ extendedIngredients :=
                [{ original := "200g pasta" }, { original := "1 onion" }] }])
      (fun _ => .error "imap down")
      { type := some "recipe", food_type := some "pasta",
        recipient_email := some "a@b.com" }
      ["200g pasta", "1 onion"] rfl rfl (by decide)
  rw [h]
  decide

/-- C3: code bug.  The message ids from `search_data[0].split()` are
`bytes` and are stored unconverted in the summaries, so `json.dumps` at
line 211 raises `TypeError` on every non-empty `emails` list and the
top-level `except` sends
`{"success": false, "message": "Object of type bytes is not JSON
serializable"}` instead — here evaluated at a `"fetch_emails"` request
with one matching message (id `b'1'`).  The claimed
`{"success": true, "emails": []}` reaches the client only when the
fetch produces no summaries, as in the second conjunct's unreachable
mail server. -/
theorem C3_fetch_emails_bytes_bug :
    (handle_client_connection (.failure "api down") (.ok ())
        (fun _ => .ok [{ id := { data := [49] }, subject := "Hi",
                         sender := "x@y.z",
                         msg := .leaf "text/plain" "hello" }])
        (.valid { type := some "fetch_emails", food_type := none,
                  recipient_email := none })).sent =
      [{ success := false,
         message := some "Object of type bytes is not JSON serializable",
         ingredients := none, emails := none }] ∧
    (handle_client_connection (.failure "api down") (.ok ())
        (fun _ => .error "[Errno 111] Connection refused")
        (.valid { type := some "fetch_emails", food_type := none,
                  recipient_email := none })).sent =
      [{ success := true, message := none, ingredients := none,
         emails := some [] }] := by
  decide

/-- C4 counterexample: an accepted connection whose `recv` returns no
data (`if not data: return`) is closed without any JSON payload being
sent, and the process does not crash — so the client does not receive
exactly one response object. -/
theorem C4_empty_recv_counterexample :
    ¬ ((handle_client_connection (.failure "api down") (.ok ())
        (fun _ => .error "imap down") .empty).sent.length = 1) := by
  decide

/-- C4 (amended): every accepted connection is closed afterwards, and
whenever the connection delivered a non-empty payload — well-formed or
not, and however handling fares — exactly one JSON response object is
sent before closing; when `recv` returns no data the handler sends
nothing but still closes the connection. -/
theorem C4_one_response_and_close (api : ApiOutcome) (smtp : SmtpOutcome)
    (imap : ImapWorld) (recv : RecvData) :
    (handle_client_connection api smtp imap recv).closed = true ∧
    (recv ≠ .empty →
      (handle_client_connection api smtp imap recv).sent.length = 1) := by
  cases recv <;> simp [handle_client_connection]

/-- C4 witness: the amended statement at a malformed payload
(`json.loads` raised). -/
theorem C4_one_response_and_close_witness :
    (handle_client_connection (.failure "api down") (.ok ())
        (fun _ => .error "imap down")
        (.invalid "Expecting value: line 1 column 1 (char 0)")).closed = true ∧
    (handle_client_connection (.failure "api down") (.ok ())
        (fun _ => .error "imap down")
        (.invalid "Expecting value: line 1 column 1 (char 0)")).sent.length = 1 := by
  have h := C4_one_response_and_close (.failure "api down") (.ok ())
      (fun _ => .error "imap down")
      (.invalid "Expecting value: line 1 column 1 (char 0)")
  exact ⟨h.1, h.2 (by decide)⟩

/-- C5: every `"recipe"` request for which the lookup returns `[]` is
answered exactly
`{"success": false, "message": "No ingredients found", "ingredients": []}`,
and `send_email` is never invoked (the recorded call list is empty). -/
theorem C5_no_ingredients (api : ApiOutcome) (smtp : SmtpOutcome)
    (imap : ImapWorld) (req : Request)
    (ht : req.type = some "recipe")
    (hL : get_recipe_ingredients api = []) :
    handle_request api smtp imap req =
      ({ success := false, message := some "No ingredients found",
         ingredients := some [], emails := none }, []) := by
  unfold handle_request
  rw [ht]
  simp [hL]

/-- C5 witness: a `"recipe"` request with the API returning an empty
`results` array. -/
theorem C5_no_ingredients_witness :
    handle_request (.ok []) (.ok ()) (fun _ => .error "imap down")
        { type := some "recipe", food_type := some "pasta",
          recipient_email := some "a@b.com" } =
      ({ success := false, message := some "No ingredients found",
         ingredients := some [], emails := none }, []) :=
  C5_no_ingredients (.ok []) (.ok ()) (fun _ => .error "imap down")
    { type := some "recipe", food_type := some "pasta",
      recipient_email := some "a@b.com" } rfl rfl

/-- C6: `get_recipe_ingredients` returns the `original` text of every
entry of the first result's ingredient list, in order, when `results`
is non-empty; `[]` when `results` is empty; and `[]` on any caught
network/parse failure — so an API failure is indistinguishable from "no
recipe found". -/
theorem C6_get_recipe_ingredients (e : String) (r : ApiRecipe)
    (rs : List ApiRecipe) :
    get_recipe_ingredients (.ok (r :: rs)) =
      r.extendedIngredients.map (fun i => i.original) ∧
    get_recipe_ingredients (.ok []) = [] ∧
    get_recipe_ingredients (.failure e) = [] ∧
    get_recipe_ingredients (.failure e) = get_recipe_ingredients (.ok []) :=
  ⟨rfl, rfl, rfl, rfl⟩

/-- C7: `send_email` never raises to its caller (it is a total
function of the SMTP session outcome): a successful session yields
`(True, "Email sent successfully")` and any caught failure `e` yields
`(False, str(e))`. -/
theorem C7_send_email (e : String) :
    send_email (.ok ()) = (true, "Email sent successfully") ∧
    send_email (.error e) = (false, e) :=
  ⟨rfl, rfl⟩

/-- C8: for a multipart message, the extracted body is the decoded
payload of the first part in `walk()` order whose content type is
`text/plain` (first match, not best match — that part is necessarily a
leaf); for a non-multipart message it is the decoded payload of the
single body. -/
theorem C8_body_extraction (sub : String) (parts : List MailPart)
    (p : MailPart) (ct s : String)
    (hfind : (walk (.multi sub parts)).find?
        (fun q => get_content_type q == "text/plain") = some p) :
    (∃ payload, p = .leaf "text/plain" payload ∧
      _get_email_body (.multi sub parts) = payload) ∧
    _get_email_body (.leaf ct s) = s := by
  refine ⟨?_, rfl⟩
  obtain ⟨payload, hp⟩ := find_textplain_leaf _ _ hfind
  refine ⟨payload, hp, ?_⟩
  rw [hp] at hfind
  simp [_get_email_body, hfind]

/-- C8 witness: a multipart/alternative message whose walk order holds
an HTML part, then two `text/plain` parts; the body is the first
`text/plain` payload. Also the single-part case. -/
theorem C8_body_extraction_witness :
    _get_email_body (.multi "alternative"
        [.leaf "text/html" "<p>hello</p>", .leaf "text/plain" "hello",
         .leaf "text/plain" "second"]) = "hello" ∧
    _get_email_body (.leaf "text/plain" "single body") = "single body" := by
  have h := C8_body_extraction "alternative"
      [.leaf "text/html" "<p>hello</p>", .leaf "text/plain" "hello",
       .leaf "text/plain" "second"]
      (.leaf "text/plain" "hello") "text/plain" "single body" rfl
  obtain ⟨⟨payload, hp, hbody⟩, hleaf⟩ := h
  refine ⟨?_, hleaf⟩
  cases hp
  exact hbody

/-- C9: calling `fetch_recent_emails` with `limit = 0` and a non-empty
set of matching messages returns a summary of every matching message —
not zero of them — because `email_ids[-0:]` is the whole list. -/
theorem C9_limit_zero (imap : ImapWorld) (ids : List RawEmail)
    (h : imap "UNSEEN" = .ok ids) (hne : ids ≠ []) :
    fetch_recent_emails imap "UNSEEN" 0 =
      ids.map (fun e =>
        { id := e.id, subject := e.subject, sender := e.sender,
          body := _get_email_body e.msg }) ∧
    fetch_recent_emails imap "UNSEEN" 0 ≠ [] := by
  have hall : fetch_recent_emails imap "UNSEEN" 0 =
      ids.map (fun e =>
        { id := e.id, subject := e.subject, sender := e.sender,
          body := _get_email_body e.msg }) := by
    unfold fetch_recent_emails
    rw [h]
    simp [pySliceLast]
  refine ⟨hall, ?_⟩
  rw [hall]
  simpa using hne

/-- C9 witness: one unseen message, `limit = 0`: the whole mailbox
selection comes back. -/
theorem C9_limit_zero_witness :
    fetch_recent_emails
        (fun _ => .ok [{ id := { data := [49, 55] }, subject := "Hi",
                         sender := "x@y.z",
                         msg := .leaf "text/plain" "hello there" }])
        "UNSEEN" 0 =
      [{ id := { data := [49, 55] }, subject := "Hi", sender := "x@y.z",
         body := "hello there" }] := by
  have h := C9_limit_zero
      (fun _ => .ok [{ id := { data := [49, 55] }, subject := "Hi",
                       sender := "x@y.z",
                       msg := .leaf "text/plain" "hello there" }])
      [{ id := { data := [49, 55] }, subject := "Hi", sender := "x@y.z",
         msg := .leaf "text/plain" "hello there" }]
      rfl (by simp)
  rw [h.1]
  rfl

/-- C10: a multipart message with no `text/plain` part anywhere in its
walk yields the empty body `""`, and its `EmailSummary` is still
produced, with `body = ""`. -/
theorem C10_multipart_without_textplain (sub : String)
    (parts : List MailPart) (i : Bytes) (s snd : String)
    (h : ∀ p ∈ walk (.multi sub parts), get_content_type p ≠ "text/plain") :
    _get_email_body (.multi sub parts) = "" ∧
    fetch_recent_emails
        (fun _ => .ok [{ id := i, subject := s, sender := snd,
                         msg := .multi sub parts }])
        "UNSEEN" 5 =
      [{ id := i, subject := s, sender := snd, body := "" }] := by
  have hfind : (walk (.multi sub parts)).find?
      (fun q => get_content_type q == "text/plain") = none := by
    rw [List.find?_eq_none]
    intro x hx
    simpa using h x hx
  have hbody : _get_email_body (.multi sub parts) = "" := by
    simp [_get_email_body, hfind]
  refine ⟨hbody, ?_⟩
  unfold fetch_recent_emails
  simp [pySliceLast, hbody]

/-- C10 witness: a multipart/mixed message holding only an HTML part
and a nested empty container. -/
theorem C10_multipart_without_textplain_witness :
    _get_email_body (.multi "mixed"
        [.leaf "text/html" "<p>no plain text</p>", .multi "related" []]) = "" ∧
    fetch_recent_emails
        (fun _ => .ok [{ id := { data := [51] }, subject := "news",
                         sender := "a@b.c",
                         msg := .multi "mixed"
                           [.leaf "text/html" "<p>no plain text</p>",
                            .multi "related" []] }])
        "UNSEEN" 5 =
      [{ id := { data := [51] }, subject := "news", sender := "a@b.c",
         body := "" }] := by
  exact C10_multipart_without_textplain "mixed"
    [.leaf "text/html" "<p>no plain text</p>", .multi "related" []]
    { data := [51] } "news" "a@b.c" (by
      intro p hp
      simp [walk, walkList] at hp
      rcases hp with h1 | h2 | h3 <;> subst_vars <;> decide)

end Recipeh
